import Mathlib

/-!
Verification of the MS_SDR_FIX webhook relay backend.

Shallow embedding of the Go sources:
  - internal/cache/memory.go      (MemoryCache, Get/Set)
  - internal/router/handlers.go   (webhook handler, resolver chain, raw filter)
  - internal/webhook/converter.go (LID->JID converter, DetectAndConvertIDs,
                                   ApplyConversionsToJSON)

External effects (os.Getenv, the persistent client store, json.Unmarshal /
json.Marshal of the Go standard library, the HTTP client) are modelled as
oracle parameters; everything the repository itself computes is translated
to executable Lean definitions.
-/

namespace MSSDR

/-- Model of a decoded Go JSON value (the result of `json.Unmarshal` into
`interface{}` / `map[string]interface{}`); objects are association lists
because Go maps have unique keys. -/
inductive JVal where
  | null
  | boolVal (b : Bool)
  | numVal (n : Int)
  | strVal (s : String)
  | arrVal (xs : List JVal)
  | objVal (fields : List (String × JVal))

/-- Association-list lookup, modelling a Go map read `m[k]`. -/
def alookup {K V : Type} [DecidableEq K] : List (K × V) → K → Option V
  | [], _ => none
  | (k2, v) :: rest, k => if k2 = k then some v else alookup rest k

/-- Association-list write, modelling a Go map assignment `m[k] = v`
(overwrite an existing key, otherwise add the binding). -/
def aset {K V : Type} [DecidableEq K] : List (K × V) → K → V → List (K × V)
  | [], k, v => [(k, v)]
  | (k2, v2) :: rest, k, v =>
    if k2 = k then (k, v) :: rest else (k2, v2) :: aset rest k v

/-- Model of the Go type assertion `x.(string)` on an optional JSON value. -/
def jStr : Option JVal → Option String
  | some (JVal.strVal s) => some s
  | _ => none

/-- Model of the Go type assertion `x.(map[string]interface{})`. -/
def jObj : Option JVal → Option (List (String × JVal))
  | some (JVal.objVal fs) => some fs
  | _ => none

/-- Character-list prefix test (used to build substring containment). -/
def listPrefix : List Char → List Char → Bool
  | [], _ => true
  | _ :: _, [] => false
  | a :: as, b :: bs => a == b && listPrefix as bs

/-- Substring containment, modelling Go `strings.Contains s pat`. -/
def strContains (s pat : String) : Bool :=
  (List.range (s.data.length + 1)).any fun i => listPrefix pat.data (s.data.drop i)

/-- Whitespace test used by Go `strings.TrimSpace` (ASCII subset; the
payloads and environment values of this service are ASCII). -/
def isSpaceChar (c : Char) : Bool :=
  c == ' ' || c == '\t' || c == '\n' || c == '\r'

/-- Model of Go `strings.TrimSpace`: drop leading and trailing whitespace. -/
def trimSpace (s : String) : String :=
  String.mk (((s.data.dropWhile isSpaceChar).reverse.dropWhile isSpaceChar).reverse)

/-- ASCII lowercase of one character (Go `strings.ToLower` on the ASCII
identifiers this service handles). -/
def toLowerChar (c : Char) : Char :=
  if 'A' ≤ c ∧ c ≤ 'Z' then Char.ofNat (c.toNat + 32) else c

/-- ASCII uppercase of one character. -/
def toUpperChar (c : Char) : Char :=
  if 'a' ≤ c ∧ c ≤ 'z' then Char.ofNat (c.toNat - 32) else c

/-- Model of Go `strings.ToLower`. -/
def strToLower (s : String) : String := String.mk (s.data.map toLowerChar)

/-- Model of Go `strings.ToUpper`. -/
def strToUpper (s : String) : String := String.mk (s.data.map toUpperChar)

/-- Model of Go `strings.HasPrefix`. -/
def strHasPrefixOf (pat s : String) : Bool := listPrefix pat.data s.data

/-- Model of Go `strings.HasSuffix`. -/
def strHasSuffixOf (pat s : String) : Bool := listPrefix pat.data.reverse s.data.reverse

/-- Model of `strings.ReplaceAll(s, "-", "_")` — the only replacement the
source performs, a single-character substitution. -/
def replaceDashUnderscore (s : String) : String :=
  String.mk (s.data.map fun c => if c == '-' then '_' else c)

/-- Model of the `strings.Map` call in the handler that drops the whitespace
characters space, newline, carriage return and tab. -/
def stripWS (s : String) : String :=
  String.mk (s.data.filter fun c => !(c == ' ' || c == '\n' || c == '\r' || c == '\t'))

/-! Embedding of internal/cache/memory.go.  `time.Time` is modelled by `Nat`
instants; each operation takes the current instant `now` explicitly. -/

/-- Cache entry: `entry[V]` of memory.go. -/
structure Entry (V : Type) where
  value : V
  expiresAt : Nat
deriving DecidableEq

/-- In-memory TTL cache: `MemoryCache[K, V]` of memory.go (the mutex only
serialises access and has no sequential behaviour, so it is not modelled). -/
structure MemoryCache (K V : Type) where
  ttl : Nat
  items : List (K × Entry V)
deriving DecidableEq

/-- `Get` of memory.go: a hit requires the key to be present and
`time.Now().After(expiresAt)` to be false; the table is never mutated.
The unchanged cache is returned explicitly so that purity of the read
path is part of the statement. -/
def MemoryCache.get {K V : Type} [DecidableEq K]
    (c : MemoryCache K V) (now : Nat) (key : K) : Option V × MemoryCache K V :=
  match alookup c.items key with
  | none => (none, c)
  | some e => if now > e.expiresAt then (none, c) else (some e.value, c)

/-- `Set` of memory.go: overwrite wholesale with a fresh TTL window. -/
def MemoryCache.set {K V : Type} [DecidableEq K]
    (c : MemoryCache K V) (now : Nat) (key : K) (value : V) : MemoryCache K V :=
  { c with items := aset c.items key ⟨value, now + c.ttl⟩ }

/-- C9: `Get` returns a value exactly when an entry for the key is present
and `now` is not strictly after its `expiresAt`; on a miss (absent or
expired) the table is left unchanged — the expired entry is not deleted. -/
theorem c9_cache_get_spec {K V : Type} [DecidableEq K]
    (c : MemoryCache K V) (now : Nat) (k : K) :
    (c.get now k).2 = c ∧
    ∀ v : V, (c.get now k).1 = some v ↔
      ∃ e : Entry V, alookup c.items k = some e ∧ e.value = v ∧ now ≤ e.expiresAt := by
  unfold MemoryCache.get
  cases h : alookup c.items k with
  | none => simp
  | some e =>
    by_cases hn : now > e.expiresAt
    · simp only [if_pos hn]
      refine ⟨by trivial, ?_⟩
      intro v
      constructor
      · intro hv; cases hv
      · rintro ⟨e2, he2, _, hle⟩
        cases Option.some.inj he2
        omega
    · simp only [if_neg hn]
      refine ⟨by trivial, ?_⟩
      intro v
      constructor
      · intro hv
        exact ⟨e, rfl, Option.some.inj hv, by omega⟩
      · rintro ⟨e2, he2, hv, _⟩
        cases Option.some.inj he2
        rw [hv]

/-- C9 witness: concrete evaluation of the specification at a one-entry
cache, a fresh and an expired instant. -/
theorem c9_witness :
    ((MemoryCache.get (K := String) (V := String) ⟨60, [("k", ⟨"v", 10⟩)]⟩ 5 "k").2
       = ⟨60, [("k", ⟨"v", 10⟩)]⟩) ∧
    ((MemoryCache.get (K := String) (V := String) ⟨60, [("k", ⟨"v", 10⟩)]⟩ 5 "k").1
       = some "v") := by
  refine ⟨(c9_cache_get_spec ⟨60, [("k", ⟨"v", 10⟩)]⟩ 5 "k").1, ?_⟩
  exact ((c9_cache_get_spec ⟨60, [("k", ⟨"v", 10⟩)]⟩ 5 "k").2 "v").mpr
    ⟨⟨"v", 10⟩, rfl, rfl, by decide⟩

/-! Embedding of the tenant resolver of internal/router/handlers.go.
`os.Getenv` is an oracle `getenv`; the persistent store
(`d.ClientSvc.GetBySecretID`) is an oracle returning either an error
(`Except.error ()`), a nil client (`Except.ok none`) or a client row. -/

/-- Fields of `models.Client` read by the resolver. -/
structure Client where
  webhookURL : String
  isActive : Bool
deriving DecidableEq

/-- `resolveClientWebhookURLFromEnv` of handlers.go: try
`CLIENT_` + secretID with `-` replaced by `_`, lowercased then uppercased;
a non-empty trimmed environment value wins. -/
def resolveClientWebhookURLFromEnv (getenv : String → String) (secretID : String) :
    Option String :=
  let underscored := replaceDashUnderscore secretID
  let lower := "CLIENT_" ++ strToLower underscored
  let upper := "CLIENT_" ++ strToUpper underscored
  if trimSpace (getenv lower) ≠ "" then some (trimSpace (getenv lower))
  else if trimSpace (getenv upper) ≠ "" then some (trimSpace (getenv upper))
  else none

/-- `resolveClientWebhookCached` of handlers.go: cache, then environment
override (populating the cache), then store (populating the cache when the
client exists and is active). -/
def resolveClientWebhookCached (getenv : String → String)
    (store : String → Except Unit (Option Client))
    (cache : MemoryCache String String) (now : Nat) (secretID : String) :
    Option String × MemoryCache String String :=
  match (cache.get now secretID).1 with
  | some v => (some v, cache)
  | none =>
    match resolveClientWebhookURLFromEnv getenv secretID with
    | some url => (some url, cache.set now secretID url)
    | none =>
      match store secretID with
      | Except.ok (some client) =>
        if client.isActive then
          (some client.webhookURL, cache.set now secretID client.webhookURL)
        else (none, cache)
      | _ => (none, cache)

/-- C3: the resolver tries cache, then the environment override (built from
the fixed prefix `CLIENT_` and the secret with `-` replaced by `_`, in
lowercase then uppercase form, cached on a hit), then the store (cached on
an active hit), short-circuiting at each stage.  The first conjunct
quantifies over every `getenv` and `store`, so while a non-expired cache
entry exists an environment override placed later has no effect. -/
theorem c3_resolver_chain (getenv : String → String)
    (store : String → Except Unit (Option Client))
    (cache : MemoryCache String String) (now : Nat) (sid : String) :
    (∀ v, (cache.get now sid).1 = some v →
      resolveClientWebhookCached getenv store cache now sid = (some v, cache)) ∧
    (∀ v, trimSpace (getenv ("CLIENT_" ++ strToLower (replaceDashUnderscore sid))) = v →
      v ≠ "" → resolveClientWebhookURLFromEnv getenv sid = some v) ∧
    (trimSpace (getenv ("CLIENT_" ++ strToLower (replaceDashUnderscore sid))) = "" →
     ∀ v, trimSpace (getenv ("CLIENT_" ++ strToUpper (replaceDashUnderscore sid))) = v →
      v ≠ "" → resolveClientWebhookURLFromEnv getenv sid = some v) ∧
    (trimSpace (getenv ("CLIENT_" ++ strToLower (replaceDashUnderscore sid))) = "" →
     trimSpace (getenv ("CLIENT_" ++ strToUpper (replaceDashUnderscore sid))) = "" →
      resolveClientWebhookURLFromEnv getenv sid = none) ∧
    ((cache.get now sid).1 = none →
     ∀ url, resolveClientWebhookURLFromEnv getenv sid = some url →
      resolveClientWebhookCached getenv store cache now sid =
        (some url, cache.set now sid url)) ∧
    ((cache.get now sid).1 = none →
     resolveClientWebhookURLFromEnv getenv sid = none →
     ∀ cli, store sid = Except.ok (some cli) → cli.isActive = true →
      resolveClientWebhookCached getenv store cache now sid =
        (some cli.webhookURL, cache.set now sid cli.webhookURL)) := by
  refine ⟨?_, ?_, ?_, ?_, ?_, ?_⟩
  · intro v hv
    unfold resolveClientWebhookCached
    rw [hv]
  · intro v hv hne
    unfold resolveClientWebhookURLFromEnv
    simp only [hv]
    rw [if_pos hne]
  · intro hlo v hv hne
    unfold resolveClientWebhookURLFromEnv
    simp only [hlo, hv]
    rw [if_neg (by simp), if_pos hne]
  · intro hlo hup
    unfold resolveClientWebhookURLFromEnv
    simp only [hlo, hup]
    rw [if_neg (by simp), if_neg (by simp)]
  · intro hmiss url henv
    unfold resolveClientWebhookCached
    rw [hmiss, henv]
  · intro hmiss henv cli hstore hact
    unfold resolveClientWebhookCached
    rw [hmiss, henv, hstore]
    dsimp only
    rw [if_pos hact]

/-- C3 witness: the conjuncts of `c3_resolver_chain` evaluated at concrete
inputs — a cached secret ignoring a live environment override, the two key
forms, and the env-hit and store-hit population paths. -/
theorem c3_witness :
    (resolveClientWebhookCached (fun _ => "http://env/override")
       (fun _ => Except.error ()) ⟨60, [("a-b", ⟨"http://cached", 10⟩)]⟩ 5 "a-b"
       = (some "http://cached", ⟨60, [("a-b", ⟨"http://cached", 10⟩)]⟩)) ∧
    (resolveClientWebhookURLFromEnv
       (fun k => if k = "CLIENT_a_b" then "http://lo" else "") "a-b"
       = some "http://lo") ∧
    (resolveClientWebhookURLFromEnv
       (fun k => if k = "CLIENT_A_B" then "http://up" else "") "a-b"
       = some "http://up") ∧
    (resolveClientWebhookCached
       (fun k => if k = "CLIENT_a_b" then "http://lo" else "")
       (fun _ => Except.error ()) ⟨60, []⟩ 5 "a-b"
       = (some "http://lo", ⟨60, [("a-b", ⟨"http://lo", 65⟩)]⟩)) ∧
    (resolveClientWebhookCached (fun _ => "")
       (fun _ => Except.ok (some ⟨"http://db", true⟩)) ⟨60, []⟩ 5 "a-b"
       = (some "http://db", ⟨60, [("a-b", ⟨"http://db", 65⟩)]⟩)) := by
  refine ⟨?_, ?_, ?_, ?_, ?_⟩
  · exact (c3_resolver_chain (fun _ => "http://env/override") (fun _ => Except.error ())
      ⟨60, [("a-b", ⟨"http://cached", 10⟩)]⟩ 5 "a-b").1 "http://cached" (by decide)
  · exact (c3_resolver_chain (fun k => if k = "CLIENT_a_b" then "http://lo" else "")
      (fun _ => Except.error ()) ⟨60, []⟩ 5 "a-b").2.1 "http://lo" (by decide) (by decide)
  · exact (c3_resolver_chain (fun k => if k = "CLIENT_A_B" then "http://up" else "")
      (fun _ => Except.error ()) ⟨60, []⟩ 5 "a-b").2.2.1 (by decide) "http://up"
      (by decide) (by decide)
  · exact (c3_resolver_chain (fun k => if k = "CLIENT_a_b" then "http://lo" else "")
      (fun _ => Except.error ()) ⟨60, []⟩ 5 "a-b").2.2.2.2.1 (by decide) "http://lo"
      (by decide)
  · exact (c3_resolver_chain (fun _ => "") (fun _ => Except.ok (some ⟨"http://db", true⟩))
      ⟨60, []⟩ 5 "a-b").2.2.2.2.2 (by decide) (by decide) ⟨"http://db", true⟩ rfl rfl

/-! Embedding of the `POST /webhook/:secretId` handler of
internal/router/handlers.go (the closure registered in `Register`).
The standard library JSON decoder, form decoders and the HTTP client are
oracles carried in `Deps`; the logging and Slack-notification side
channels have no effect on the response and are not modelled. -/

/-- Outbound relay request built by the handler. -/
structure OutboundCall where
  url : String
  body : String
  contentType : String
deriving DecidableEq

/-- Destination response observed by the handler. -/
structure HTTPResp where
  status : Nat
  contentType : String
  body : String
deriving DecidableEq

/-- Response the handler writes back to the caller. -/
inductive Outcome where
  | badRequest (msg : String)
  | notFound
  | ignoredGroup
  | internalError
  | badGateway
  | mirrored (status : Nat) (contentType : String) (body : String)
deriving DecidableEq

/-- Observable result of one handler run: the response, the outbound call
performed (if any), and the cache state afterwards. -/
structure HandlerResult where
  outcome : Outcome
  outbound : Option OutboundCall
  cache : MemoryCache String String
deriving DecidableEq

/-- Oracles for the handler's external collaborators. -/
structure Deps where
  getenv : String → String
  store : String → Except Unit (Option Client)
  jsonParse : String → Option (List (String × JVal))
  formValue : String → String
  multipartFormValue : String → String
  newRequestOK : String → Bool
  doRequest : OutboundCall → Option HTTPResp

/-- Scan of the nested `body` object (handlers.go 250-261): per entry, in
iteration order, first a key that looks like a JSON object, then a string
value starting with a brace; the first match wins. -/
def scanBodyFields : List (String × JVal) → Option String
  | [] => none
  | (key, value) :: rest =>
    if strHasPrefixOf "\x7b" key && strHasSuffixOf "\x7d" key then some key
    else match value with
      | JVal.strVal v => if strHasPrefixOf "\x7b" v then some v else scanBodyFields rest
      | _ => scanBodyFields rest

/-- Unwrapping used when the top-level `jsonData` field is absent or blank
(handlers.go 246-277): look inside a `body` object, else fall back to the
whole trimmed body. -/
def extractFromBodyField (m : List (String × JVal)) (bodyTrim : String) : String :=
  match jObj (alookup m "body") with
  | some bodyFields =>
    match scanBodyFields bodyFields with
    | some s => s
    | none =>
      match jStr (alookup bodyFields "jsonData") with
      | some v => if trimSpace v ≠ "" then v else bodyTrim
      | none => bodyTrim
  | none => bodyTrim

/-- Extraction for `application/json` bodies (handlers.go 229-282):
`parsed` is the result of `json.Unmarshal` of the body into a string map. -/
def extractJSONPayload (parsed : Option (List (String × JVal))) (bodyTrim : String) :
    String :=
  if bodyTrim = "" then ""
  else match parsed with
    | none => bodyTrim
    | some m =>
      match jStr (alookup m "jsonData") with
      | some v => if trimSpace v ≠ "" then v else extractFromBodyField m bodyTrim
      | none => extractFromBodyField m bodyTrim

/-- Content-type dispatch of the extraction switch (handlers.go 228-292). -/
def extractPayload (d : Deps) (ctLower : String) (body : String) : String :=
  if strHasPrefixOf "application/json" ctLower then
    extractJSONPayload (d.jsonParse body) (trimSpace body)
  else if strHasPrefixOf "multipart/form-data" ctLower then
    d.multipartFormValue "jsonData"
  else
    d.formValue "jsonData"

/-- Reason logged when the raw filter rejects a message. -/
def filterRawReason : String := "filter_raw_match"

/-- Raw group/broadcast filter (handlers.go 323-333): substring checks on
the case-folded payload, plus `isgroup:true` checks on its
whitespace-stripped form.  Note only the `isgroup` patterns are matched
against the compact form. -/
def rawGroupMatch (jsonDataStr : String) : Bool :=
  let rawLower := strToLower jsonDataStr
  let rawCompact := stripWS rawLower
  strContains rawLower "@g.us" || strContains rawLower "@broadcast" ||
  strContains rawLower "status@broadcast" ||
  strContains rawCompact "\"isgroup\":true" ||
  strContains rawCompact "\\\"isgroup\\\":true"

/-- The webhook handler: trim the secret, extract the payload by content
type, reject a blank payload with 400, resolve the tenant (404 on a miss),
drop raw-filter matches with 200 ignored, then relay the original bytes
with the original (or default) content type and mirror the destination's
status, content type and body. -/
def webhookHandler (d : Deps) (cache : MemoryCache String String) (now : Nat)
    (secretParam contentType body : String) : HandlerResult :=
  let secretID := trimSpace secretParam
  if secretID = "" then
    ⟨Outcome.badRequest "secret id ausente", none, cache⟩
  else
    let ctLower := strToLower contentType
    let jsonDataStr := extractPayload d ctLower body
    if trimSpace jsonDataStr = "" then
      ⟨Outcome.badRequest "jsonData ausente", none, cache⟩
    else
      match resolveClientWebhookCached d.getenv d.store cache now secretID with
      | (none, cache2) => ⟨Outcome.notFound, none, cache2⟩
      | (some targetURL, cache2) =>
        if rawGroupMatch jsonDataStr then
          ⟨Outcome.ignoredGroup, none, cache2⟩
        else
          let sendCT :=
            if contentType ≠ "" then contentType else "application/x-www-form-urlencoded"
          let call : OutboundCall := ⟨targetURL, body, sendCT⟩
          if d.newRequestOK targetURL then
            match d.doRequest call with
            | none => ⟨Outcome.badGateway, some call, cache2⟩
            | some resp =>
              ⟨Outcome.mirrored resp.status resp.contentType resp.body, some call, cache2⟩
          else ⟨Outcome.internalError, none, cache2⟩

/-- Concrete oracle set: no environment overrides, an empty store, a JSON
decoder that rejects everything, and blank form fields. -/
def depsNoRoute : Deps where
  getenv := fun _ => ""
  store := fun _ => Except.ok none
  jsonParse := fun _ => none
  formValue := fun _ => ""
  multipartFormValue := fun _ => ""
  newRequestOK := fun _ => true
  doRequest := fun _ => none

/-- Cache holding a fresh route for secret `abc`. -/
def cacheABC : MemoryCache String String := ⟨60, [("abc", ⟨"http://dest/x", 100⟩)]⟩

/-- C1 (counterexample): the code extracts the payload before resolving the
tenant.  With a secret that resolves to nothing and a whitespace-only JSON
body (empty extracted payload) the handler answers 400, not the 404 the
claim requires. -/
theorem c1_counterexample :
    (webhookHandler depsNoRoute ⟨60, []⟩ 0 "abc" "application/json" "   ").outcome
      = Outcome.badRequest "jsonData ausente" ∧
    (webhookHandler depsNoRoute ⟨60, []⟩ 0 "abc" "application/json" "   ").outcome
      ≠ Outcome.notFound ∧
    resolveClientWebhookCached depsNoRoute.getenv depsNoRoute.store ⟨60, []⟩ 0 "abc"
      = (none, ⟨60, []⟩) := by
  refine ⟨by decide, by decide, by decide⟩

/-- C1 (amended): payload extraction is performed before tenant resolution;
whenever the extracted payload trims to empty, the handler answers 400
`jsonData ausente` for every resolver environment — in particular also when
the secret would resolve to no tenant — so such requests never see 404. -/
theorem c1_extraction_precedes_resolution (d : Deps) (cache : MemoryCache String String)
    (now : Nat) (secretParam contentType body : String)
    (hsid : trimSpace secretParam ≠ "")
    (hempty : trimSpace (extractPayload d (strToLower contentType) body) = "") :
    webhookHandler d cache now secretParam contentType body =
      ⟨Outcome.badRequest "jsonData ausente", none, cache⟩ := by
  unfold webhookHandler
  dsimp only
  rw [if_neg hsid, if_pos hempty]

/-- C1 witness: the amended statement evaluated at the counterexample
request. -/
theorem c1_witness :
    webhookHandler depsNoRoute ⟨60, []⟩ 0 "abc" "application/json" "   " =
      ⟨Outcome.badRequest "jsonData ausente", none, ⟨60, []⟩⟩ :=
  c1_extraction_precedes_resolution depsNoRoute ⟨60, []⟩ 0 "abc" "application/json" "   "
    (by decide) (by decide)

/-- Oracle set for a resolvable secret whose form payload contains `@g.us`
only after whitespace is removed. -/
def depsGroupGap : Deps where
  getenv := fun _ => ""
  store := fun _ => Except.ok none
  jsonParse := fun _ => none
  formValue := fun f => if f = "jsonData" then "@g\n.us" else ""
  multipartFormValue := fun _ => ""
  newRequestOK := fun _ => true
  doRequest := fun _ => some ⟨201, "text/plain", "ok"⟩

/-- C2 (counterexample): the payload `@g\n.us` contains `@g.us` once
whitespace is removed, yet the handler forwards it (mirroring the
destination's 201) instead of answering 200 ignored: the compact,
whitespace-stripped form is only matched against the `isgroup` patterns,
never against `@g.us`. -/
theorem c2_counterexample :
    strContains (stripWS (strToLower "@g\n.us")) "@g.us" = true ∧
    (webhookHandler depsGroupGap cacheABC 0 "abc" "application/x-www-form-urlencoded"
        "raw-body").outcome = Outcome.mirrored 201 "text/plain" "ok" ∧
    (webhookHandler depsGroupGap cacheABC 0 "abc" "application/x-www-form-urlencoded"
        "raw-body").outbound
      = some ⟨"http://dest/x", "raw-body", "application/x-www-form-urlencoded"⟩ := by
  refine ⟨by decide, by decide, by decide⟩

/-- C2 (amended): whenever the extracted payload contains `@g.us` directly
(after case folding, without whitespace removal), valid JSON or not, the
handler answers 200 ignored with no outbound call, and the raw filter's
logged reason is non-empty; occurrences that appear only after whitespace
removal are not matched (see the counterexample). -/
theorem c2_raw_gus_direct_ignored (d : Deps) (cache : MemoryCache String String)
    (now : Nat) (secretParam contentType body : String)
    (hsid : trimSpace secretParam ≠ "")
    (hpay : trimSpace (extractPayload d (strToLower contentType) body) ≠ "")
    (url : String) (cache2 : MemoryCache String String)
    (hres : resolveClientWebhookCached d.getenv d.store cache now (trimSpace secretParam)
      = (some url, cache2))
    (hgus : strContains (strToLower (extractPayload d (strToLower contentType) body))
      "@g.us" = true) :
    webhookHandler d cache now secretParam contentType body =
      ⟨Outcome.ignoredGroup, none, cache2⟩ ∧
    filterRawReason ≠ "" := by
  refine ⟨?_, by decide⟩
  have hmatch : rawGroupMatch (extractPayload d (strToLower contentType) body) = true := by
    unfold rawGroupMatch
    dsimp only
    rw [hgus]
    rfl
  unfold webhookHandler
  dsimp only
  rw [if_neg hsid, if_neg hpay, hres]
  dsimp only
  rw [if_pos hmatch]

/-- Oracle set for a resolvable secret and a plainly forwardable payload. -/
def depsForward : Deps where
  getenv := fun _ => ""
  store := fun _ => Except.ok none
  jsonParse := fun _ => none
  formValue := fun f => if f = "jsonData" then "x@g.us" else ""
  multipartFormValue := fun _ => ""
  newRequestOK := fun _ => true
  doRequest := fun _ => some ⟨201, "text/plain", "ok"⟩

/-- C2 witness: the amended statement evaluated at a direct `x@g.us`
payload behind a cached route. -/
theorem c2_witness :
    webhookHandler depsForward cacheABC 0 "abc" "text/plain" "b" =
      ⟨Outcome.ignoredGroup, none, cacheABC⟩ ∧
    filterRawReason ≠ "" :=
  c2_raw_gus_direct_ignored depsForward cacheABC 0 "abc" "text/plain" "b"
    (by decide) (by decide) "http://dest/x" cacheABC (by decide) (by decide)

/-- C4: on a successful relay the outbound POST carries the original raw
body byte-for-byte and the original content type (or the urlencoded
default when the original is empty), and the destination's status, content
type and body are mirrored back to the caller. -/
theorem c4_forward_preserves_body (d : Deps) (cache : MemoryCache String String)
    (now : Nat) (secretParam contentType body : String)
    (hsid : trimSpace secretParam ≠ "")
    (hpay : trimSpace (extractPayload d (strToLower contentType) body) ≠ "")
    (url : String) (cache2 : MemoryCache String String)
    (hres : resolveClientWebhookCached d.getenv d.store cache now (trimSpace secretParam)
      = (some url, cache2))
    (hfilter : rawGroupMatch (extractPayload d (strToLower contentType) body) = false)
    (hreq : d.newRequestOK url = true)
    (resp : HTTPResp)
    (hdo : d.doRequest ⟨url, body,
        if contentType ≠ "" then contentType else "application/x-www-form-urlencoded"⟩
      = some resp) :
    webhookHandler d cache now secretParam contentType body =
      ⟨Outcome.mirrored resp.status resp.contentType resp.body,
       some ⟨url, body,
         if contentType ≠ "" then contentType else "application/x-www-form-urlencoded"⟩,
       cache2⟩ := by
  unfold webhookHandler
  dsimp only
  rw [if_neg hsid, if_neg hpay, hres]
  dsimp only
  rw [if_neg (by simp [hfilter]), if_pos hreq, hdo]

/-- Oracle set with a plain, non-group form payload `evt`. -/
def depsRelay : Deps where
  getenv := fun _ => ""
  store := fun _ => Except.ok none
  jsonParse := fun _ => none
  formValue := fun f => if f = "jsonData" then "evt" else ""
  multipartFormValue := fun _ => ""
  newRequestOK := fun _ => true
  doRequest := fun _ => some ⟨201, "text/plain", "ok"⟩

/-- C4 witness: a non-group payload behind a cached route, destination
answering 201 text/plain `ok`, mirrored to the caller with the original
body `b` forwarded under the original content type. -/
theorem c4_witness :
    webhookHandler depsRelay cacheABC 0 "abc" "text/csv" "b" =
      ⟨Outcome.mirrored 201 "text/plain" "ok",
       some ⟨"http://dest/x", "b", "text/csv"⟩, cacheABC⟩ := by
  have h := c4_forward_preserves_body depsRelay cacheABC 0 "abc" "text/csv" "b"
    (by decide) (by decide) "http://dest/x" cacheABC (by decide) (by decide) (by decide)
    ⟨201, "text/plain", "ok"⟩ (by decide)
  simpa using h

/-- C5 (counterexample): for the empty event string, the JSON body
`\x7b"jsonData": ""\x7d` decodes to a map whose `jsonData` field is blank,
so the extractor ignores it and returns the whole trimmed body instead of
the event string — the claim's "for every event string e" fails at e = "". -/
theorem c5_counterexample :
    extractJSONPayload (some [("jsonData", JVal.strVal "")])
        "\x7b\"jsonData\": \"\"\x7d"
      = "\x7b\"jsonData\": \"\"\x7d" ∧
    "\x7b\"jsonData\": \"\"\x7d" ≠ "" := by
  refine ⟨by decide, by decide⟩

/-- C5 (amended): for every event string `e` whose trimmed form is
non-empty, extracting from a JSON body decoded as the envelope
`\x7b"jsonData": e\x7d` returns exactly `e`; a blank `e` instead falls back
to the whole trimmed body. -/
theorem c5_envelope_extraction (e bodyTrim : String)
    (hb : bodyTrim ≠ "") (he : trimSpace e ≠ "") :
    extractJSONPayload (some [("jsonData", JVal.strVal e)]) bodyTrim = e := by
  unfold extractJSONPayload
  rw [if_neg hb]
  have h1 : alookup [("jsonData", JVal.strVal e)] "jsonData"
      = some (JVal.strVal e) := by simp [alookup]
  dsimp only
  rw [h1]
  dsimp only [jStr]
  rw [if_pos he]

/-- C5 witness: the amended statement evaluated at a concrete event. -/
theorem c5_witness :
    extractJSONPayload (some [("jsonData", JVal.strVal "evt")]) "ignored-body" = "evt" :=
  c5_envelope_extraction "evt" "ignored-body" (by decide) (by decide)

/-- C8: with a cache miss and no environment override, a store error, a nil
client and an inactive client all yield the identical not-found resolver
result (no cache write), and each such resolver miss surfaces as a 404 on
the webhook path once a non-empty payload was extracted. -/
theorem c8_notfound_uniform (getenv : String → String)
    (cache : MemoryCache String String) (now : Nat) (sid : String)
    (hmiss : (cache.get now sid).1 = none)
    (henv : resolveClientWebhookURLFromEnv getenv sid = none) :
    (∀ store : String → Except Unit (Option Client), store sid = Except.error () →
       resolveClientWebhookCached getenv store cache now sid = (none, cache)) ∧
    (∀ store : String → Except Unit (Option Client), store sid = Except.ok none →
       resolveClientWebhookCached getenv store cache now sid = (none, cache)) ∧
    (∀ (store : String → Except Unit (Option Client)) (cli : Client),
       store sid = Except.ok (some cli) → cli.isActive = false →
       resolveClientWebhookCached getenv store cache now sid = (none, cache)) ∧
    (∀ (d : Deps) (secretParam contentType body : String),
       trimSpace secretParam = sid → sid ≠ "" →
       trimSpace (extractPayload d (strToLower contentType) body) ≠ "" →
       resolveClientWebhookCached d.getenv d.store cache now sid = (none, cache) →
       webhookHandler d cache now secretParam contentType body =
         ⟨Outcome.notFound, none, cache⟩) := by
  refine ⟨?_, ?_, ?_, ?_⟩
  · intro store hstore
    unfold resolveClientWebhookCached
    rw [hmiss, henv, hstore]
  · intro store hstore
    unfold resolveClientWebhookCached
    rw [hmiss, henv, hstore]
  · intro store cli hstore hact
    unfold resolveClientWebhookCached
    rw [hmiss, henv, hstore]
    dsimp only
    rw [if_neg (by simp [hact])]
  · intro d secretParam contentType body hsp hsid hpay hres
    unfold webhookHandler
    dsimp only
    rw [hsp, if_neg hsid, if_neg hpay, hres]

/-- Oracle set whose store always reports an error. -/
def depsStoreError : Deps where
  getenv := fun _ => ""
  store := fun _ => Except.error ()
  jsonParse := fun _ => none
  formValue := fun f => if f = "jsonData" then "evt" else ""
  multipartFormValue := fun _ => ""
  newRequestOK := fun _ => true
  doRequest := fun _ => none

/-- C8 witness: store error, nil client and inactive client all produce the
same concrete not-found result, and the webhook path answers 404. -/
theorem c8_witness :
    (resolveClientWebhookCached (fun _ => "") (fun _ => Except.error ())
       ⟨60, []⟩ 0 "abc" = (none, ⟨60, []⟩)) ∧
    (resolveClientWebhookCached (fun _ => "") (fun _ => Except.ok none)
       ⟨60, []⟩ 0 "abc" = (none, ⟨60, []⟩)) ∧
    (resolveClientWebhookCached (fun _ => "")
       (fun _ => Except.ok (some ⟨"http://db", false⟩)) ⟨60, []⟩ 0 "abc"
       = (none, ⟨60, []⟩)) ∧
    (webhookHandler depsStoreError ⟨60, []⟩ 0 "abc" "text/plain" "b" =
       ⟨Outcome.notFound, none, ⟨60, []⟩⟩) := by
  have h := c8_notfound_uniform (fun _ => "") ⟨60, []⟩ 0 "abc" (by decide) (by decide)
  refine ⟨h.1 (fun _ => Except.error ()) rfl, h.2.1 (fun _ => Except.ok none) rfl,
    h.2.2.1 (fun _ => Except.ok (some ⟨"http://db", false⟩)) ⟨"http://db", false⟩ rfl rfl,
    h.2.2.2 depsStoreError "abc" "text/plain" "b" (by decide) (by decide) (by decide)
      (by decide)⟩

/-! Embedding of internal/webhook/converter.go.  The remote normalization
endpoint is an oracle: `NetResult` is what the HTTP exchange produced
(transport error, or a status code with an optionally decodable body). -/

/-- `IsLID` of converter.go: the identifier ends with `@lid`,
case-insensitively. -/
def isLID (id : String) : Bool := strHasSuffixOf "@lid" (strToLower id)

/-- `IsJID` of converter.go. -/
def isJID (id : String) : Bool :=
  strContains (strToLower id) "@s.whatsapp.net" || strContains (strToLower id) "@g.us"

/-- Decoded `LIDConvertResponse.Data` of converter.go. -/
structure LIDConvertData where
  success : Bool
  jid : String
  jidClear : String
deriving DecidableEq

/-- Decoded `LIDConvertResponse` of converter.go. -/
structure LIDConvertResponse where
  status : Bool
  data : LIDConvertData
deriving DecidableEq

/-- Outcome of the outbound call to `\x7bbaseURL\x7d/user/parselid`
(oracle): transport failure, or an HTTP status with the decoded body when
decoding succeeds. -/
inductive NetResult where
  | transportError (msg : String)
  | httpResponse (statusCode : Nat) (decoded : Option LIDConvertResponse)

/-- `ConvertLIDToJID` of converter.go: non-LID inputs are returned
unchanged; a missing base URL, then a missing token, fail before any
network activity; otherwise the oracle call is made and transport errors,
non-200 statuses, undecodable bodies and structured failure flags are
errors.  The boolean records whether the network call was performed. -/
def convertLIDToJID (baseURL token lid : String) (net : String → NetResult) :
    Except String String × Bool :=
  if !isLID lid then (Except.ok lid, false)
  else if baseURL = "" then
    (Except.error "URL da API Avisa não configurada", false)
  else if token = "" then
    (Except.error "token da API não fornecido para conversão LID->JID", false)
  else
    match net lid with
    | NetResult.transportError msg =>
      (Except.error ("erro ao executar requisição: " ++ msg), true)
    | NetResult.httpResponse code decoded =>
      if code ≠ 200 then (Except.error "API retornou status não-OK", true)
      else match decoded with
        | none => (Except.error "erro ao decodificar resposta", true)
        | some resp =>
          if resp.status && resp.data.success then (Except.ok resp.data.jid, true)
          else (Except.error "conversão falhou na API", true)

/-- C6: a non-legacy identifier is returned unchanged with no error and no
network call, for every base URL, token and network behaviour; and a legacy
identifier with a configured base URL but an empty token fails with the
token-missing error, again without any network call. -/
theorem c6_convert_noop_and_token_missing :
    (∀ (baseURL token lid : String) (net : String → NetResult), isLID lid = false →
       convertLIDToJID baseURL token lid net = (Except.ok lid, false)) ∧
    (∀ (baseURL lid : String) (net : String → NetResult),
       isLID lid = true → baseURL ≠ "" →
       convertLIDToJID baseURL "" lid net =
         (Except.error "token da API não fornecido para conversão LID->JID", false)) := by
  constructor
  · intro baseURL token lid net hlid
    unfold convertLIDToJID
    rw [if_pos (by simp [hlid])]
  · intro baseURL lid net hlid hurl
    unfold convertLIDToJID
    rw [if_neg (by simp [hlid]), if_neg hurl, if_pos rfl]

/-- C6 witness: concrete evaluations — a JID passes through untouched even
with a hostile network oracle, and a LID with empty token fails before the
network. -/
theorem c6_witness :
    convertLIDToJID "http://api" "tok" "55@s.whatsapp.net"
        (fun _ => NetResult.transportError "down")
      = (Except.ok "55@s.whatsapp.net", false) ∧
    convertLIDToJID "http://api" "" "123@lid"
        (fun _ => NetResult.httpResponse 200 (some ⟨true, ⟨true, "55@s.whatsapp.net", ""⟩⟩))
      = (Except.error "token da API não fornecido para conversão LID->JID", false) :=
  ⟨c6_convert_noop_and_token_missing.1 "http://api" "tok" "55@s.whatsapp.net"
     (fun _ => NetResult.transportError "down") (by decide),
   c6_convert_noop_and_token_missing.2 "http://api" "123@lid"
     (fun _ => NetResult.httpResponse 200 (some ⟨true, ⟨true, "55@s.whatsapp.net", ""⟩⟩))
     (by decide) (by decide)⟩

/-- `ConvertedEventInfo` of converter.go; the `Conversions` map is an
association list filled in the fixed order Chat, Sender, SenderAlt,
RecipientAlt, so its keys are unique. -/
structure ConvertedEventInfo where
  originalData : String
  chat : String := ""
  chatJID : String := ""
  sender : String := ""
  senderJID : String := ""
  senderAlt : String := ""
  senderAltJID : String := ""
  recipientAlt : String := ""
  recipientAltJID : String := ""
  isGroup : Bool := false
  conversions : List (String × String) := []

/-- `eventFields` of parse.go (nil Go maps are `none`). -/
structure EventFields where
  info : Option (List (String × JVal)) := none
  message : Option (List (String × JVal)) := none

/-- `jsonDataEnvelope` of parse.go. -/
structure JsonDataEnvelope where
  event : EventFields

/-- Chat block of `DetectAndConvertIDs` (converter.go 134-145).  `conv`
models the `ConvertLIDToJID` call with the ambient context and token. -/
def chatStep (conv : String → Except String String) (info : List (String × JVal))
    (r : ConvertedEventInfo) : ConvertedEventInfo :=
  match jStr (alookup info "Chat") with
  | some chat =>
    if chat ≠ "" then
      if isLID chat then
        match conv chat with
        | Except.ok jid =>
          { r with chat := chat, chatJID := jid,
                   conversions := r.conversions ++ [("Chat", chat ++ " -> " ++ jid)] }
        | Except.error _ => { r with chat := chat }
      else { r with chat := chat, chatJID := chat }
    else r
  | none => r

/-- Sender block of `DetectAndConvertIDs` (converter.go 147-158). -/
def senderStep (conv : String → Except String String) (info : List (String × JVal))
    (r : ConvertedEventInfo) : ConvertedEventInfo :=
  match jStr (alookup info "Sender") with
  | some sender =>
    if sender ≠ "" then
      if isLID sender then
        match conv sender with
        | Except.ok jid =>
          { r with sender := sender, senderJID := jid,
                   conversions := r.conversions ++ [("Sender", sender ++ " -> " ++ jid)] }
        | Except.error _ => { r with sender := sender }
      else { r with sender := sender, senderJID := sender }
    else r
  | none => r

/-- SenderAlt block of `DetectAndConvertIDs` (converter.go 160-173): only
LID-format values are converted, and a successful conversion backfills a
missing `SenderJID`. -/
def senderAltStep (conv : String → Except String String) (info : List (String × JVal))
    (r : ConvertedEventInfo) : ConvertedEventInfo :=
  match jStr (alookup info "SenderAlt") with
  | some senderAlt =>
    if senderAlt ≠ "" then
      if isLID senderAlt then
        match conv senderAlt with
        | Except.ok jid =>
          let r2 :=
            { r with
              senderAlt := senderAlt
              senderAltJID := jid
              conversions := r.conversions ++ [("SenderAlt", senderAlt ++ " -> " ++ jid)] }
          if r2.senderJID = "" then { r2 with senderJID := jid } else r2
        | Except.error _ => { r with senderAlt := senderAlt }
      else { r with senderAlt := senderAlt }
    else r
  | none => r

/-- RecipientAlt block of `DetectAndConvertIDs` (converter.go 175-188):
symmetric to SenderAlt, backfilling a missing `ChatJID`. -/
def recipientAltStep (conv : String → Except String String) (info : List (String × JVal))
    (r : ConvertedEventInfo) : ConvertedEventInfo :=
  match jStr (alookup info "RecipientAlt") with
  | some recipientAlt =>
    if recipientAlt ≠ "" then
      if isLID recipientAlt then
        match conv recipientAlt with
        | Except.ok jid =>
          let r2 :=
            { r with
              recipientAlt := recipientAlt
              recipientAltJID := jid
              conversions :=
                r.conversions ++ [("RecipientAlt", recipientAlt ++ " -> " ++ jid)] }
          if r2.chatJID = "" then { r2 with chatJID := jid } else r2
        | Except.error _ => { r with recipientAlt := recipientAlt }
      else { r with recipientAlt := recipientAlt }
    else r
  | none => r

/-- IsGroup block of `DetectAndConvertIDs` (converter.go 190-198). -/
def isGroupStep (info : List (String × JVal)) (r : ConvertedEventInfo) :
    ConvertedEventInfo :=
  match alookup info "IsGroup" with
  | some (JVal.boolVal b) => { r with isGroup := b }
  | some (JVal.strVal s) => { r with isGroup := strToLower (trimSpace s) = "true" }
  | _ => r

/-- Final group re-derivation from the canonical chat (converter.go
201-207). -/
def groupRederiveStep (r : ConvertedEventInfo) : ConvertedEventInfo :=
  if r.chatJID ≠ "" then
    if strContains (strToLower r.chatJID) "@g.us" ||
       strContains (strToLower r.chatJID) "@broadcast" then
      { r with isGroup := true }
    else r
  else r

/-- Body of `DetectAndConvertIDs` after the envelope parse succeeded. -/
def detectOk (conv : String → Except String String) (jsonDataStr : String)
    (env : JsonDataEnvelope) : ConvertedEventInfo :=
  let r0 : ConvertedEventInfo := { originalData := jsonDataStr }
  let r1 :=
    match env.event.info with
    | some info =>
      isGroupStep info
        (recipientAltStep conv info
          (senderAltStep conv info (senderStep conv info (chatStep conv info r0))))
    | none => r0
  groupRederiveStep r1

/-- `DetectAndConvertIDs` of converter.go: `parsed` is the result of
`json.Unmarshal` of the event into `jsonDataEnvelope`; only its failure
produces an error. -/
def detectAndConvertIDs (conv : String → Except String String) (jsonDataStr : String)
    (parsed : Option JsonDataEnvelope) : Except String ConvertedEventInfo :=
  match parsed with
  | none => Except.error "erro ao fazer parse do evento"
  | some env => Except.ok (detectOk conv jsonDataStr env)

/-- Key membership in the `Conversions` map. -/
def hasConvKey (r : ConvertedEventInfo) (k : String) : Bool :=
  r.conversions.any fun p => p.1 == k

/-- Entry the named field contributes to the `Conversions` map: present
exactly when the field is a non-empty string in `Info`, is LID-format, and
its remote conversion succeeded. -/
def convEntryFor (conv : String → Except String String) (info : List (String × JVal))
    (fieldName : String) : List (String × String) :=
  match jStr (alookup info fieldName) with
  | some v =>
    if v ≠ "" then
      if isLID v then
        match conv v with
        | Except.ok jid => [(fieldName, v ++ " -> " ++ jid)]
        | Except.error _ => []
      else []
    else []
  | none => []

lemma chatStep_conversions (conv : String → Except String String)
    (info : List (String × JVal)) (r : ConvertedEventInfo) :
    (chatStep conv info r).conversions = r.conversions ++ convEntryFor conv info "Chat" := by
  unfold chatStep convEntryFor
  cases jStr (alookup info "Chat") with
  | none => simp
  | some chat =>
    dsimp only
    by_cases hne : chat ≠ ""
    · rw [if_pos hne, if_pos hne]
      by_cases hl : isLID chat = true
      · rw [if_pos hl, if_pos hl]
        cases conv chat with
        | ok jid => simp
        | error e => simp
      · rw [if_neg hl, if_neg hl]
        simp
    · rw [if_neg hne, if_neg hne]
      simp

lemma senderStep_conversions (conv : String → Except String String)
    (info : List (String × JVal)) (r : ConvertedEventInfo) :
    (senderStep conv info r).conversions =
      r.conversions ++ convEntryFor conv info "Sender" := by
  unfold senderStep convEntryFor
  cases jStr (alookup info "Sender") with
  | none => simp
  | some sender =>
    dsimp only
    by_cases hne : sender ≠ ""
    · rw [if_pos hne, if_pos hne]
      by_cases hl : isLID sender = true
      · rw [if_pos hl, if_pos hl]
        cases conv sender with
        | ok jid => simp
        | error e => simp
      · rw [if_neg hl, if_neg hl]
        simp
    · rw [if_neg hne, if_neg hne]
      simp

lemma senderAltStep_conversions (conv : String → Except String String)
    (info : List (String × JVal)) (r : ConvertedEventInfo) :
    (senderAltStep conv info r).conversions =
      r.conversions ++ convEntryFor conv info "SenderAlt" := by
  unfold senderAltStep convEntryFor
  cases jStr (alookup info "SenderAlt") with
  | none => simp
  | some senderAlt =>
    dsimp only
    by_cases hne : senderAlt ≠ ""
    · rw [if_pos hne, if_pos hne]
      by_cases hl : isLID senderAlt = true
      · rw [if_pos hl, if_pos hl]
        cases conv senderAlt with
        | ok jid => dsimp only; split <;> simp
        | error e => simp
      · rw [if_neg hl, if_neg hl]
        simp
    · rw [if_neg hne, if_neg hne]
      simp

lemma recipientAltStep_conversions (conv : String → Except String String)
    (info : List (String × JVal)) (r : ConvertedEventInfo) :
    (recipientAltStep conv info r).conversions =
      r.conversions ++ convEntryFor conv info "RecipientAlt" := by
  unfold recipientAltStep convEntryFor
  cases jStr (alookup info "RecipientAlt") with
  | none => simp
  | some recipientAlt =>
    dsimp only
    by_cases hne : recipientAlt ≠ ""
    · rw [if_pos hne, if_pos hne]
      by_cases hl : isLID recipientAlt = true
      · rw [if_pos hl, if_pos hl]
        cases conv recipientAlt with
        | ok jid => dsimp only; split <;> simp
        | error e => simp
      · rw [if_neg hl, if_neg hl]
        simp
    · rw [if_neg hne, if_neg hne]
      simp

lemma isGroupStep_conversions (info : List (String × JVal)) (r : ConvertedEventInfo) :
    (isGroupStep info r).conversions = r.conversions := by
  unfold isGroupStep
  split <;> rfl

lemma groupRederiveStep_conversions (r : ConvertedEventInfo) :
    (groupRederiveStep r).conversions = r.conversions := by
  unfold groupRederiveStep
  split <;> (try split) <;> rfl

lemma detectOk_conversions (conv : String → Except String String) (s : String)
    (env : JsonDataEnvelope) :
    (detectOk conv s env).conversions =
      match env.event.info with
      | some info =>
        convEntryFor conv info "Chat" ++ convEntryFor conv info "Sender" ++
        convEntryFor conv info "SenderAlt" ++ convEntryFor conv info "RecipientAlt"
      | none => [] := by
  unfold detectOk
  cases env.event.info with
  | none => simp [groupRederiveStep_conversions]
  | some info =>
    dsimp only
    rw [groupRederiveStep_conversions, isGroupStep_conversions,
      recipientAltStep_conversions, senderAltStep_conversions,
      senderStep_conversions, chatStep_conversions]
    simp [List.append_assoc]

lemma convEntryFor_key_iff (conv : String → Except String String)
    (info : List (String × JVal)) (f : String) :
    ((convEntryFor conv info f).any fun p => p.1 == f) = true ↔
      ∃ v, jStr (alookup info f) = some v ∧ v ≠ "" ∧ isLID v = true ∧
        ∃ jid, conv v = Except.ok jid := by
  unfold convEntryFor
  cases h : jStr (alookup info f) with
  | none => simp
  | some v =>
    dsimp only
    by_cases hne : v ≠ ""
    · rw [if_pos hne]
      by_cases hl : isLID v = true
      · rw [if_pos hl]
        cases hc : conv v with
        | ok jid => simp [hne, hl, hc]
        | error e => simp [hne, hl, hc]
      · rw [if_neg hl]
        simp [hne, hl]
    · rw [if_neg hne]
      simp at hne
      simp [hne]

lemma convEntryFor_other_key (conv : String → Except String String)
    (info : List (String × JVal)) (f k : String) (h : (f == k) = false) :
    ((convEntryFor conv info f).any fun p => p.1 == k) = false := by
  unfold convEntryFor
  cases jStr (alookup info f) with
  | none => simp
  | some v =>
    dsimp only
    by_cases hne : v ≠ ""
    · rw [if_pos hne]
      by_cases hl : isLID v = true
      · rw [if_pos hl]
        cases conv v with
        | ok jid => simp [h]
        | error e => simp
      · rw [if_neg hl]
        simp
    · rw [if_neg hne]
      simp

/-- C7: for a parseable payload `DetectAndConvertIDs` always succeeds (only
an envelope parse failure errors), and each of the four fields contributes
a `Conversions` entry exactly when that field itself is a non-empty
LID-format string in `Info` whose remote conversion succeeded — a condition
mentioning only that field's own data, so one field's failure never blocks
or pollutes the others. -/
theorem c7_conversions_characterization (conv : String → Except String String)
    (s : String) :
    (detectAndConvertIDs conv s none = Except.error "erro ao fazer parse do evento") ∧
    (∀ env : JsonDataEnvelope,
       detectAndConvertIDs conv s (some env) = Except.ok (detectOk conv s env)) ∧
    (∀ env : JsonDataEnvelope, hasConvKey (detectOk conv s env) "Chat" = true ↔
       ∃ info v, env.event.info = some info ∧ jStr (alookup info "Chat") = some v ∧
         v ≠ "" ∧ isLID v = true ∧ ∃ jid, conv v = Except.ok jid) ∧
    (∀ env : JsonDataEnvelope, hasConvKey (detectOk conv s env) "Sender" = true ↔
       ∃ info v, env.event.info = some info ∧ jStr (alookup info "Sender") = some v ∧
         v ≠ "" ∧ isLID v = true ∧ ∃ jid, conv v = Except.ok jid) ∧
    (∀ env : JsonDataEnvelope, hasConvKey (detectOk conv s env) "SenderAlt" = true ↔
       ∃ info v, env.event.info = some info ∧ jStr (alookup info "SenderAlt") = some v ∧
         v ≠ "" ∧ isLID v = true ∧ ∃ jid, conv v = Except.ok jid) ∧
    (∀ env : JsonDataEnvelope, hasConvKey (detectOk conv s env) "RecipientAlt" = true ↔
       ∃ info v, env.event.info = some info ∧
         jStr (alookup info "RecipientAlt") = some v ∧
         v ≠ "" ∧ isLID v = true ∧ ∃ jid, conv v = Except.ok jid) := by
  refine ⟨rfl, fun env => rfl, ?_, ?_, ?_, ?_⟩
  · intro env
    unfold hasConvKey
    rw [detectOk_conversions]
    cases hinfo : env.event.info with
    | none => simp
    | some info =>
      dsimp only
      rw [List.any_append, List.any_append, List.any_append,
        convEntryFor_other_key conv info "Sender" "Chat" (by decide),
        convEntryFor_other_key conv info "SenderAlt" "Chat" (by decide),
        convEntryFor_other_key conv info "RecipientAlt" "Chat" (by decide)]
      simp only [Bool.or_false]
      rw [convEntryFor_key_iff]
      simp
  · intro env
    unfold hasConvKey
    rw [detectOk_conversions]
    cases hinfo : env.event.info with
    | none => simp
    | some info =>
      dsimp only
      rw [List.any_append, List.any_append, List.any_append,
        convEntryFor_other_key conv info "Chat" "Sender" (by decide),
        convEntryFor_other_key conv info "SenderAlt" "Sender" (by decide),
        convEntryFor_other_key conv info "RecipientAlt" "Sender" (by decide)]
      simp only [Bool.or_false, Bool.false_or]
      rw [convEntryFor_key_iff]
      simp
  · intro env
    unfold hasConvKey
    rw [detectOk_conversions]
    cases hinfo : env.event.info with
    | none => simp
    | some info =>
      dsimp only
      rw [List.any_append, List.any_append, List.any_append,
        convEntryFor_other_key conv info "Chat" "SenderAlt" (by decide),
        convEntryFor_other_key conv info "Sender" "SenderAlt" (by decide),
        convEntryFor_other_key conv info "RecipientAlt" "SenderAlt" (by decide)]
      simp only [Bool.or_false, Bool.false_or]
      rw [convEntryFor_key_iff]
      simp
  · intro env
    unfold hasConvKey
    rw [detectOk_conversions]
    cases hinfo : env.event.info with
    | none => simp
    | some info =>
      dsimp only
      rw [List.any_append, List.any_append, List.any_append,
        convEntryFor_other_key conv info "Chat" "RecipientAlt" (by decide),
        convEntryFor_other_key conv info "Sender" "RecipientAlt" (by decide),
        convEntryFor_other_key conv info "SenderAlt" "RecipientAlt" (by decide)]
      simp only [Bool.false_or]
      rw [convEntryFor_key_iff]
      simp

/-- Oracle conversion table used by the C7 witness: `111@lid` converts,
everything else fails remotely. -/
def convDemo : String → Except String String :=
  fun id => if id = "111@lid" then Except.ok "111@s.whatsapp.net"
            else Except.error "conversão falhou na API"

/-- Event whose Chat is a convertible LID and whose Sender is a LID whose
conversion fails. -/
def envDemo : JsonDataEnvelope :=
  ⟨{ info := some [("Chat", JVal.strVal "111@lid"), ("Sender", JVal.strVal "222@lid")] }⟩

/-- C7 witness: on `envDemo` the operation succeeds, the Chat entry is
present, and the failed Sender conversion leaves no Sender entry while not
blocking Chat. -/
theorem c7_witness :
    (detectAndConvertIDs convDemo "orig" (some envDemo)
       = Except.ok (detectOk convDemo "orig" envDemo)) ∧
    hasConvKey (detectOk convDemo "orig" envDemo) "Chat" = true ∧
    hasConvKey (detectOk convDemo "orig" envDemo) "Sender" = false := by
  have h := c7_conversions_characterization convDemo "orig"
  refine ⟨h.2.1 envDemo, ?_, by decide⟩
  exact (h.2.2.1 envDemo).mpr
    ⟨[("Chat", JVal.strVal "111@lid"), ("Sender", JVal.strVal "222@lid")], "111@lid",
     rfl, by decide, by decide, by decide, "111@s.whatsapp.net",
     by simp [convDemo]⟩

/-- `HasConversions` of converter.go: `len(c.Conversions) > 0`. -/
def hasConversions (c : ConvertedEventInfo) : Bool := c.conversions.length != 0

/-- Substitution step of `ApplyConversionsToJSON` (converter.go 262-284):
inside `event.Info`, replace each of the four identifiers by its converted
form when a distinct non-empty converted value exists.  Writing the updated
`Info` and `event` objects back models Go's in-place mutation of the shared
map. -/
def applyConvRewrite (c : ConvertedEventInfo) (m : List (String × JVal)) :
    List (String × JVal) :=
  match jObj (alookup m "event") with
  | some ev =>
    match jObj (alookup ev "Info") with
    | some info =>
      let info1 :=
        if c.chatJID ≠ "" ∧ c.chat ≠ "" ∧ c.chatJID ≠ c.chat then
          aset info "Chat" (JVal.strVal c.chatJID)
        else info
      let info2 :=
        if c.senderJID ≠ "" ∧ c.sender ≠ "" ∧ c.senderJID ≠ c.sender then
          aset info1 "Sender" (JVal.strVal c.senderJID)
        else info1
      let info3 :=
        if c.senderAltJID ≠ "" ∧ c.senderAlt ≠ "" ∧ c.senderAltJID ≠ c.senderAlt then
          aset info2 "SenderAlt" (JVal.strVal c.senderAltJID)
        else info2
      let info4 :=
        if c.recipientAltJID ≠ "" ∧ c.recipientAlt ≠ "" ∧
            c.recipientAltJID ≠ c.recipientAlt then
          aset info3 "RecipientAlt" (JVal.strVal c.recipientAltJID)
        else info3
      aset m "event" (JVal.objVal (aset ev "Info" (JVal.objVal info4)))
    | none => m
  | none => m

/-- `ApplyConversionsToJSON` of converter.go.  `parse` models
`json.Unmarshal` of the original data into a string map and `marshal`
models `json.Marshal` (which cannot fail on string-keyed maps of decoded
JSON values). -/
def applyConversionsToJSON (c : ConvertedEventInfo)
    (parse : String → Option (List (String × JVal)))
    (marshal : List (String × JVal) → String) : Except String String :=
  if !hasConversions c then Except.ok c.originalData
  else
    match parse c.originalData with
    | none => Except.error "erro ao fazer parse do JSON original"
    | some m => Except.ok (marshal (applyConvRewrite c m))

/-- C10: with an empty `Conversions` map the stored original string is
returned verbatim with no error, for every decoder — in particular also
when the original is not valid JSON (decoder returns `none`); with at least
one conversion recorded the original is parsed (failing exactly when the
parse fails) and otherwise substituted and re-serialized. -/
theorem c10_apply_conversions (c : ConvertedEventInfo)
    (parse : String → Option (List (String × JVal)))
    (marshal : List (String × JVal) → String) :
    (hasConversions c = false →
       applyConversionsToJSON c parse marshal = Except.ok c.originalData) ∧
    (hasConversions c = true → parse c.originalData = none →
       applyConversionsToJSON c parse marshal =
         Except.error "erro ao fazer parse do JSON original") ∧
    (hasConversions c = true → ∀ m, parse c.originalData = some m →
       applyConversionsToJSON c parse marshal =
         Except.ok (marshal (applyConvRewrite c m))) := by
  refine ⟨?_, ?_, ?_⟩
  · intro h
    unfold applyConversionsToJSON
    rw [if_pos (by simp [h])]
  · intro h hp
    unfold applyConversionsToJSON
    rw [if_neg (by simp [h]), hp]
  · intro h m hp
    unfold applyConversionsToJSON
    rw [if_neg (by simp [h]), hp]

/-- C10 witness: an empty-conversions record with a non-JSON original is
returned verbatim against a decoder rejecting everything, and a record with
one conversion fails on the same decoder. -/
theorem c10_witness :
    applyConversionsToJSON { originalData := "not json" } (fun _ => none)
        (fun _ => "") = Except.ok "not json" ∧
    applyConversionsToJSON
        { originalData := "not json", conversions := [("Chat", "a -> b")] }
        (fun _ => none) (fun _ => "")
      = Except.error "erro ao fazer parse do JSON original" :=
  ⟨(c10_apply_conversions { originalData := "not json" } (fun _ => none)
      (fun _ => "")).1 (by decide),
   (c10_apply_conversions
      { originalData := "not json", conversions := [("Chat", "a -> b")] }
      (fun _ => none) (fun _ => "")).2.1 (by decide) rfl⟩

end MSSDR
